import Mathlib

/-!
Verification of the DatAI chat-completion gateway specification.

The repository's frontend (app/frontend/src/pages/ChatPage.tsx,
app/frontend/src/components/ModelSelector.tsx) is embedded directly from
the source.  The backend core (router, rate limiter, response cleaner,
orchestrator) is not present in the source tree, only its documentation,
so those components are modelled from the specification, as marked on
each definition.
-/

namespace DatAI

/-- Token alphabet for model-output text.  `thinkOpen` and `thinkClose` are
the known start/end markers of a delimited internal-reasoning segment,
`fence` is a redundant markdown artifact, `space` is whitespace and `chr`
is any other character. -/
inductive Tok where
  | thinkOpen : Tok
  | thinkClose : Tok
  | space : Tok
  | fence : Tok
  | chr : Char → Tok
deriving DecidableEq

namespace TextCleaner

/-- Modelled from the spec: the repository's response cleaner
(core/text_cleaner.py, absent from the source tree) strips delimited
thinking segments.  Outside a segment, a start marker enters skipping
mode; inside, everything up to the matching end marker is dropped; stray
markers are removed as well. -/
def stripThink (inThink : Bool) : List Tok → List Tok
  | [] => []
  | t :: ts =>
    if t = Tok.thinkOpen then stripThink true ts
    else if t = Tok.thinkClose then stripThink false ts
    else if inThink then stripThink true ts
    else t :: stripThink false ts

/-- Modelled from the spec: removal of redundant markdown artifacts. -/
def dropFence (ts : List Tok) : List Tok := ts.filter (fun t => !(t == Tok.fence))

/-- Whether a token is whitespace. -/
def isSp (t : Tok) : Bool := t == Tok.space

/-- Modelled from the spec: whitespace normalization, first phase —
collapse each run of consecutive whitespace tokens to a single one. -/
def squeeze : List Tok → List Tok
  | [] => []
  | a :: ts => if isSp a && ts.head?.any isSp then squeeze ts else a :: squeeze ts

/-- Modelled from the spec: whitespace normalization, second phase —
remove leading and trailing whitespace. -/
def trimWs (l : List Tok) : List Tok :=
  ((l.dropWhile isSp).reverse.dropWhile isSp).reverse

/-- Modelled from the spec: whitespace normalization. -/
def normalizeWs (l : List Tok) : List Tok := trimWs (squeeze l)

/-- Modelled from the spec: `clean(raw_text) → cleaned_text`, the
deterministic text transform of the response cleaner — strip delimited
thinking segments, trim redundant markdown artifacts, normalize
whitespace (§4.5). -/
def clean (ts : List Tok) : List Tok := normalizeWs (dropFence (stripThink false ts))

/-- A token list free of thinking markers. -/
def noMark (ts : List Tok) : Prop :=
  ∀ t ∈ ts, t ≠ Tok.thinkOpen ∧ t ≠ Tok.thinkClose

/-- A token list with no two consecutive whitespace tokens. -/
def noSp2 (l : List Tok) : Prop :=
  List.Chain' (fun a b => ¬(isSp a = true ∧ isSp b = true)) l

/-- A token list whose head, if any, is not whitespace. -/
def headOk (l : List Tok) : Prop := ∀ t ∈ l.head?, isSp t = false

/-- A token list free of markdown artifacts. -/
def noFence (ts : List Tok) : Prop := ∀ t ∈ ts, t ≠ Tok.fence

end TextCleaner

namespace Router

/-- The fixed set of specialist endpoints. -/
inductive Specialist where
  | theory : Specialist
  | code : Specialist
  | math : Specialist
deriving DecidableEq

/-- The explicit model choice accompanying a request: "auto" or one of
the named specialists. -/
inductive ModelChoice where
  | auto : ModelChoice
  | specialist : Specialist → ModelChoice
deriving DecidableEq

/-- Modelled from the spec: the router's decision record (§3) — selected
endpoint, strategy tag, confidence score and ordered reasons. -/
structure RouterDecision where
  endpoint : Specialist
  strategy : String
  confidence : ℚ
  reasons : List String
deriving DecidableEq

/-- Whether `l` begins with `kw`. -/
def startsWith : List Char → List Char → Bool
  | _, [] => true
  | [], _ :: _ => false
  | a :: as, b :: bs => a == b && startsWith as bs

/-- Whether `kw` occurs as a contiguous run inside `l`. -/
def containsSub : List Char → List Char → Bool
  | [], kw => kw.isEmpty
  | t :: ts, kw => startsWith (t :: ts) kw || containsSub ts kw

/-- Modelled from the spec: programming-indicative tokens (§4.3). -/
def codeSignals : List (List Char) :=
  ["```".toList, "function".toList, "bug".toList, "debug".toList, "def ".toList]

/-- Modelled from the spec: quantitative/math-indicative tokens (§4.3). -/
def mathSignals : List (List Char) :=
  ["calculate".toList, "probability".toList, "equation".toList, "statistics".toList]

/-- Whether any keyword of a signal category occurs in the text. -/
def hasSignal (text : List Char) (kws : List (List Char)) : Bool :=
  kws.any (fun kw => containsSub text kw)

/-- Modelled from the spec: heuristic confidence as a function of the
number of matched signal categories, capped strictly below 1 (§4.3). -/
def heuristicConfidence (n : ℕ) : ℚ := min ((6 + n : ℚ) / 10) (9 / 10)

/-- Modelled from the spec: `decide(explicit_model, text) → RouterDecision`
(§4.3, absent router.py).  An explicit specialist choice wins with
strategy "explicit" and confidence 1; otherwise keyword classification
with fixed precedence code > math > theory. -/
def decide (explicit_model : ModelChoice) (text : List Char) : RouterDecision :=
  match explicit_model with
  | ModelChoice.specialist s =>
      { endpoint := s
        strategy := "explicit"
        confidence := 1
        reasons := ["user override"] }
  | ModelChoice.auto =>
      let hasCode := hasSignal text codeSignals
      let hasMath := hasSignal text mathSignals
      let n := (if hasCode then 1 else 0) + (if hasMath then 1 else 0)
      if hasCode then
        { endpoint := Specialist.code
          strategy := "auto"
          confidence := heuristicConfidence n
          reasons := ["code"] ++ (if hasMath then ["math"] else []) }
      else if hasMath then
        { endpoint := Specialist.math
          strategy := "auto"
          confidence := heuristicConfidence n
          reasons := ["math"] }
      else
        { endpoint := Specialist.theory
          strategy := "auto"
          confidence := heuristicConfidence 0
          reasons := ["default"] }

end Router

namespace RateLimiter

/-- Result of one rate-limit check: allow/deny, remaining quota, window
reset timestamp and the retry-after hint derived from it. -/
structure RLResult where
  allowed : Bool
  remaining : ℕ
  reset_at : ℕ
  retry_after : ℕ
deriving DecidableEq

/-- Modelled from the spec: `check(key, limit, window_duration)` against a
keyed atomic counter store (§4.1, absent rate_limit.py).  Counting uses a
fixed tumbling window keyed by `(identity, window_start)`; the counter is
incremented atomically and the request is allowed while the count stays
within the limit.  `reset_at` is the end of the current window and the
retry-after hint is derived from it. -/
def check (store : String × ℕ → ℕ) (key : String) (limit window now : ℕ) :
    RLResult × (String × ℕ → ℕ) :=
  let w := now / window
  let cnt := store (key, w) + 1
  ({ allowed := decide (cnt ≤ limit)
     remaining := limit - cnt
     reset_at := (w + 1) * window
     retry_after := (w + 1) * window - now },
   Function.update store (key, w) cnt)

/-- Run a sequence of checks for one key through the shared store. -/
def run (store : String × ℕ → ℕ) (key : String) (limit window : ℕ) :
    List ℕ → List RLResult
  | [] => []
  | t :: ts =>
      let r := check store key limit window t
      r.1 :: run r.2 key limit window ts

end RateLimiter

namespace Orchestrator

/-- External collaborator outcomes observed during one pipeline run. -/
structure Deps where
  rateAllowed : Bool
  inputAllowed : Bool
  outputAllowed : Bool
  inferOutput : List Tok
deriving DecidableEq

/-- Terminal result of the pipeline. -/
inductive Outcome where
  | rateLimited : Outcome
  | inputBlocked : Outcome
  | responded : List Tok → Router.RouterDecision → Outcome
deriving DecidableEq

/-- Collaborator call accounting for one request: how many inference
invocations happened, and which assistant messages were persisted. -/
structure Trace where
  inferenceCalls : ℕ
  persistedAssistant : List (List Tok)
deriving DecidableEq

/-- Conversion of plain text to output tokens. -/
def strToks (s : String) : List Tok :=
  s.toList.map (fun c => if c = ' ' then Tok.space else Tok.chr c)

/-- Modelled from the spec: the fixed refusal message replacing blocked
output (§4.2). -/
def refusal : List Tok := strToks "I cannot help with that request."

/-- Modelled from the spec: the ChatOrchestrator state machine (§4.6,
absent chat endpoint code) — rate check, then input safety, then routing,
inference, cleaning, output safety and persistence, strictly in order,
with failures short-circuiting to terminal states. -/
def runPipeline (deps : Deps) (explicit_model : Router.ModelChoice) (text : List Char) :
    Outcome × Trace :=
  if deps.rateAllowed = false then (Outcome.rateLimited, ⟨0, []⟩)
  else if deps.inputAllowed = false then (Outcome.inputBlocked, ⟨0, []⟩)
  else
    let d := Router.decide explicit_model text
    let raw := deps.inferOutput
    let cleaned := TextCleaner.clean raw
    let final := if deps.outputAllowed then cleaned else refusal
    (Outcome.responded final d, ⟨1, [final]⟩)

end Orchestrator

namespace ModelSelector

/-- The model ids offered by the ModelSelector component
(ModelSelector.tsx, `models`). -/
def modelIds : List String :=
  ["auto", "theory-specialist", "code-specialist", "math-specialist"]

end ModelSelector

namespace ChatPage

/-- The `selectedModel` union type of ChatPage.tsx. -/
inductive FrontModel where
  | auto : FrontModel
  | theory : FrontModel
  | code : FrontModel
  | math : FrontModel
deriving DecidableEq

/-- The wire id of a frontend model choice. -/
def FrontModel.id : FrontModel → String
  | FrontModel.auto => "auto"
  | FrontModel.theory => "theory-specialist"
  | FrontModel.code => "code-specialist"
  | FrontModel.math => "math-specialist"

/-- The `meta` object ChatPage.tsx attaches to every send. -/
structure Meta where
  model : FrontModel
  mode : String
  temperature : ℚ
  top_p : ℚ
  max_tokens : ℕ
deriving DecidableEq

/-- The request body passed to `chatApi.sendMessageStream` and to
`chatApi.sendMessage`. -/
structure SendPayload where
  conversation_id : Option String
  message : List Char
  meta : Meta
deriving DecidableEq

/-- A network send issued by the page: the streaming call or the
synchronous mutation. -/
inductive Request where
  | streamSend : SendPayload → Request
  | syncSend : SendPayload → Request
deriving DecidableEq

/-- The payload carried by a request. -/
def Request.payload : Request → SendPayload
  | Request.streamSend p => p
  | Request.syncSend p => p

/-- The ChatPage component state relevant to sending: the input text, the
selected model, the streaming buffer and flag, the pending flag of the
synchronous mutation, and the alerts shown to the user. -/
structure ChatState where
  message : List Char
  selectedModel : FrontModel
  streamingMessage : List Char
  isStreaming : Bool
  pending : Bool
  alerts : List String
deriving DecidableEq

/-- The initial ChatPage state (the useState initializers). -/
def initialChatState : ChatState :=
  { message := []
    selectedModel := FrontModel.auto
    streamingMessage := []
    isStreaming := false
    pending := false
    alerts := [] }

/-- JavaScript-style whitespace test for `String.prototype.trim`. -/
def isWsChar (c : Char) : Bool := c == ' ' || c == '\n' || c == '\t' || c == '\r'

/-- JavaScript `message.trim()`: strip whitespace from both ends. -/
def trim (l : List Char) : List Char :=
  ((l.dropWhile isWsChar).reverse.dropWhile isWsChar).reverse

/-- The literal request body built in handleSend (ChatPage.tsx lines
119-130 and the identical fallback body at lines 164-174): the current
message with `model: selectedModel, mode: 'chat', temperature: 0.7,
top_p: 0.95, max_tokens: 2048`. -/
def mkPayload (conversationId : Option String) (msg : List Char) (m : FrontModel) : SendPayload :=
  { conversation_id := conversationId
    message := msg
    meta := { model := m
              mode := "chat"
              temperature := 7 / 10
              top_p := 95 / 100
              max_tokens := 2048 } }

/-- Events delivered by the streaming transport to the handleSend
callbacks. -/
inductive StreamEvent where
  | metadata : String → StreamEvent
  | chunk : List Char → StreamEvent
  | complete : String → StreamEvent
  | error : String → StreamEvent
deriving DecidableEq

/-- Whether an event is a non-terminal data event. -/
def isDataEvent : StreamEvent → Bool
  | StreamEvent.metadata _ => true
  | StreamEvent.chunk _ => true
  | StreamEvent.complete _ => false
  | StreamEvent.error _ => false

/-- The closure context captured by the handleSend callbacks. -/
structure SendCtx where
  conversationId : Option String
  currentMessage : List Char
  model : FrontModel

/-- The onMetadata / onChunk / onComplete / onError callbacks of
handleSend (ChatPage.tsx lines 131-179), as one step function over the
page state and the list of issued requests.  onChunk appends to the
streaming buffer; onComplete clears the buffer and the flag; onError
clears both, records the alert, and issues the one synchronous fallback
send with the captured message and the same meta. -/
def applyEvent (ctx : SendCtx) (s : ChatState × List Request) :
    StreamEvent → ChatState × List Request
  | StreamEvent.metadata _ => s
  | StreamEvent.chunk c =>
      ({ s.1 with streamingMessage := s.1.streamingMessage ++ c }, s.2)
  | StreamEvent.complete _ =>
      ({ s.1 with isStreaming := false, streamingMessage := [] }, s.2)
  | StreamEvent.error e =>
      ({ s.1 with
           isStreaming := false
           streamingMessage := []
           alerts := s.1.alerts ++ [e] },
       s.2 ++ [Request.syncSend (mkPayload ctx.conversationId ctx.currentMessage ctx.model)])

/-- handleSend (ChatPage.tsx lines 98-187): return immediately when the
trimmed message is empty or a stream is in progress; otherwise capture
the current message, clear the input, raise the streaming flag, clear the
buffer, issue the streaming send, and run the stream callbacks over the
delivered events. -/
def handleSend (st : ChatState) (conversationId : Option String)
    (events : List StreamEvent) : ChatState × List Request :=
  if trim st.message = [] ∨ st.isStreaming = true then (st, [])
  else
    let current := st.message
    let st1 : ChatState :=
      { st with message := [], isStreaming := true, streamingMessage := [] }
    events.foldl (applyEvent ⟨conversationId, current, st.selectedModel⟩)
      (st1, [Request.streamSend (mkPayload conversationId current st.selectedModel)])

/-- The `disabled` condition of the chat Input (ChatPage.tsx line 450). -/
def inputDisabled (st : ChatState) : Bool := st.pending || st.isStreaming

/-- The `disabled` condition of the submit Button (ChatPage.tsx line
464). -/
def sendDisabled (st : ChatState) : Bool :=
  st.pending || st.isStreaming || (trim st.message).isEmpty

end ChatPage

/-- Modelled from the spec: the boundary-validated generation
configuration of a ChatRequest (§3). -/
structure GenConfig where
  model : Router.ModelChoice
  temperature : ℚ
  max_tokens : ℕ
deriving DecidableEq

/-- Modelled from the spec: a validated ChatRequest (§3) — optional
conversation id, message text and generation configuration. -/
structure ChatRequest where
  conversation_id : Option String
  message : List Char
  config : GenConfig
deriving DecidableEq

/-- Modelled from the spec: boundary validation of a ChatRequest (§3,
absent schemas/chat.py) — message text 1 to 10,000 characters,
temperature in [0, 2], max_tokens in [1, 8192]; anything else is
rejected at construction. -/
def mkChatRequest (conversation_id : Option String) (message : List Char)
    (cfg : GenConfig) : Option ChatRequest :=
  if 1 ≤ message.length ∧ message.length ≤ 10000 ∧
     0 ≤ cfg.temperature ∧ cfg.temperature ≤ 2 ∧
     1 ≤ cfg.max_tokens ∧ cfg.max_tokens ≤ 8192
  then some ⟨conversation_id, message, cfg⟩ else none

end DatAI

namespace DatAI

namespace TextCleaner

theorem stripThink_noMark (ts : List Tok) : ∀ b : Bool, noMark (stripThink b ts) := by
  induction ts with
  | nil => intro b t ht; simp [stripThink] at ht
  | cons a ts ih =>
    intro b t ht
    simp only [stripThink] at ht
    split at ht
    · exact ih true t ht
    · split at ht
      · exact ih false t ht
      · split at ht
        · exact ih true t ht
        · rename_i h1 h2 _
          rcases List.mem_cons.mp ht with rfl | ht'
          · exact ⟨h1, h2⟩
          · exact ih false t ht'

theorem stripThink_eq_self (ts : List Tok) (h : noMark ts) : stripThink false ts = ts := by
  induction ts with
  | nil => rfl
  | cons a ts ih =>
    obtain ⟨h1, h2⟩ := h a (List.mem_cons_self a ts)
    have hts : noMark ts := fun t ht => h t (List.mem_cons_of_mem a ht)
    simp only [stripThink, if_neg h1, if_neg h2]
    simp [ih hts]

theorem mem_stripThink {t : Tok} {b : Bool} {ts : List Tok}
    (h : t ∈ stripThink b ts) : t ∈ ts := by
  induction ts generalizing b with
  | nil => simp [stripThink] at h
  | cons a ts ih =>
    simp only [stripThink] at h
    split at h
    · exact List.mem_cons_of_mem a (ih h)
    · split at h
      · exact List.mem_cons_of_mem a (ih h)
      · split at h
        · exact List.mem_cons_of_mem a (ih h)
        · rcases List.mem_cons.mp h with rfl | h'
          · exact List.mem_cons_self t ts
          · exact List.mem_cons_of_mem a (ih h')

theorem dropFence_noFence (ts : List Tok) : noFence (dropFence ts) := by
  intro t ht
  have := (List.mem_filter.mp ht).2
  simpa using this

theorem dropFence_eq_self (ts : List Tok) (h : noFence ts) : dropFence ts = ts := by
  apply List.filter_eq_self.mpr
  intro a ha
  simpa using h a ha

theorem mem_dropFence {t : Tok} {ts : List Tok} (h : t ∈ dropFence ts) : t ∈ ts :=
  (List.mem_filter.mp h).1

theorem squeeze_sublist (l : List Tok) : (squeeze l).Sublist l := by
  induction l with
  | nil => simp [squeeze]
  | cons a ts ih =>
    rw [squeeze]
    split
    · exact ih.trans (List.sublist_cons_self a ts)
    · exact List.Sublist.cons₂ a ih

theorem squeeze_cons_not_sp (t : Tok) (ts : List Tok) (h : isSp t = false) :
    squeeze (t :: ts) = t :: squeeze ts := by
  simp [squeeze, h]

theorem squeeze_noSp2 (l : List Tok) : noSp2 (squeeze l) := by
  induction l with
  | nil => simp [squeeze, noSp2]
  | cons a ts ih =>
    rw [squeeze]
    split
    · exact ih
    · rename_i hg
      rw [noSp2, List.chain'_cons']
      refine ⟨?_, ih⟩
      intro b hb hab
      obtain ⟨hsa, hsb⟩ := hab
      have hga : ¬(isSp a = true ∧ ts.head?.any isSp = true) := by simpa using hg
      apply hga
      refine ⟨hsa, ?_⟩
      cases ts with
      | nil => simp [squeeze] at hb
      | cons c ts2 =>
        by_cases hc : isSp c = true
        · simp [hc]
        · rw [squeeze_cons_not_sp c ts2 (by simpa using hc)] at hb
          simp only [List.head?_cons, Option.mem_def, Option.some.injEq] at hb
          subst hb
          exact absurd hsb hc

theorem squeeze_eq_self (l : List Tok) (h : noSp2 l) : squeeze l = l := by
  induction l with
  | nil => rfl
  | cons a ts ih =>
    have hts : noSp2 ts := List.Chain'.tail h
    rw [squeeze, if_neg ?hguard]
    · rw [ih hts]
    case hguard =>
      intro hg
      rw [Bool.and_eq_true] at hg
      obtain ⟨hsa, hany⟩ := hg
      cases ts with
      | nil => simp at hany
      | cons c ts2 =>
        have hc : isSp c = true := by simpa using hany
        have hrel := (List.chain'_cons.mp h).1
        exact hrel ⟨hsa, hc⟩

theorem mem_squeeze {t : Tok} {l : List Tok} (h : t ∈ squeeze l) : t ∈ l :=
  List.Sublist.mem h (squeeze_sublist l)

theorem headOk_dropWhile (l : List Tok) : headOk (l.dropWhile isSp) := by
  intro t ht
  have h := List.head?_dropWhile_not isSp l
  cases hh : (l.dropWhile isSp).head? with
  | none => rw [hh] at ht; simp at ht
  | some x =>
    rw [hh] at h ht
    simp only [Option.mem_def, Option.some.injEq] at ht
    subst ht
    exact h

theorem dropWhile_eq_self_of_headOk (l : List Tok) (h : headOk l) :
    l.dropWhile isSp = l := by
  cases l with
  | nil => rfl
  | cons a ts =>
    have ha : isSp a = false := h a (by simp)
    simp [List.dropWhile_cons, ha]

theorem noSp2_dropWhile (l : List Tok) (h : noSp2 l) : noSp2 (l.dropWhile isSp) :=
  List.Chain'.suffix h (List.dropWhile_suffix isSp)

theorem noSp2_reverse (l : List Tok) : noSp2 l.reverse ↔ noSp2 l := by
  rw [noSp2, noSp2, List.chain'_reverse]
  constructor
  · intro h
    exact h.imp (fun a b hab ⟨x, y⟩ => hab ⟨y, x⟩)
  · intro h
    exact h.imp (fun a b hab ⟨x, y⟩ => hab ⟨y, x⟩)

theorem noSp2_trimWs (l : List Tok) (h : noSp2 l) : noSp2 (trimWs l) := by
  rw [trimWs, noSp2_reverse]
  apply noSp2_dropWhile
  rw [noSp2_reverse]
  exact noSp2_dropWhile l h

theorem lastOk_trimWs (l : List Tok) : headOk (trimWs l).reverse := by
  rw [trimWs, List.reverse_reverse]
  exact headOk_dropWhile _

theorem headOk_trimWs (l : List Tok) : headOk (trimWs l) := by
  set u := l.dropWhile isSp with hu
  have hOkU : headOk u := headOk_dropWhile l
  obtain ⟨w, hw⟩ : u.reverse.dropWhile isSp <:+ u.reverse := List.dropWhile_suffix isSp
  intro t ht
  rw [trimWs, ← hu] at ht
  set v := u.reverse.dropWhile isSp with hv
  have hu_eq : u = v.reverse ++ w.reverse := by
    have h := congrArg List.reverse hw
    rw [List.reverse_append, List.reverse_reverse] at h
    exact h.symm
  cases hvr : v.reverse with
  | nil => rw [hvr] at ht; simp at ht
  | cons a t2 =>
    rw [hvr] at ht
    simp only [List.head?_cons, Option.mem_def, Option.some.injEq] at ht
    subst ht
    apply hOkU
    rw [hu_eq, hvr]
    simp

theorem trimWs_eq_self (l : List Tok) (h1 : headOk l) (h2 : headOk l.reverse) :
    trimWs l = l := by
  rw [trimWs, dropWhile_eq_self_of_headOk l h1, dropWhile_eq_self_of_headOk _ h2,
    List.reverse_reverse]

theorem mem_trimWs {t : Tok} {l : List Tok} (h : t ∈ trimWs l) : t ∈ l := by
  rw [trimWs, List.mem_reverse] at h
  have h2 := List.Sublist.mem h (List.dropWhile_sublist isSp)
  rw [List.mem_reverse] at h2
  exact List.Sublist.mem h2 (List.dropWhile_sublist isSp)

theorem mem_normalizeWs {t : Tok} {l : List Tok} (h : t ∈ normalizeWs l) : t ∈ l :=
  mem_squeeze (mem_trimWs h)

theorem normalizeWs_idem (l : List Tok) : normalizeWs (normalizeWs l) = normalizeWs l := by
  have hsq : noSp2 (normalizeWs l) := noSp2_trimWs _ (squeeze_noSp2 l)
  rw [normalizeWs, squeeze_eq_self _ hsq]
  exact trimWs_eq_self _ (headOk_trimWs _) (lastOk_trimWs _)

end TextCleaner

end DatAI

namespace DatAI

theorem foldl_data_requests (ctx : ChatPage.SendCtx) :
    ∀ evs : List ChatPage.StreamEvent, (∀ ev ∈ evs, ChatPage.isDataEvent ev = true) →
    ∀ s : ChatPage.ChatState × List ChatPage.Request,
      (evs.foldl (ChatPage.applyEvent ctx) s).2 = s.2 := by
  intro evs
  induction evs with
  | nil => intro _ _; rfl
  | cons ev evs ih =>
    intro h s
    rw [List.foldl_cons, ih (fun e he => h e (List.mem_cons_of_mem ev he))]
    have hev := h ev (List.mem_cons_self ev evs)
    cases ev with
    | metadata c => rfl
    | chunk c => rfl
    | complete c => simp [ChatPage.isDataEvent] at hev
    | error c => simp [ChatPage.isDataEvent] at hev

theorem foldl_chunks (ctx : ChatPage.SendCtx) :
    ∀ (cs : List (List Char)) (s : ChatPage.ChatState × List ChatPage.Request),
      (cs.map ChatPage.StreamEvent.chunk).foldl (ChatPage.applyEvent ctx) s =
        ({ s.1 with streamingMessage := s.1.streamingMessage ++ cs.flatten }, s.2) := by
  intro cs
  induction cs with
  | nil => intro s; simp
  | cons c cs ih =>
    intro s
    rw [List.map_cons, List.foldl_cons]
    show (cs.map ChatPage.StreamEvent.chunk).foldl (ChatPage.applyEvent ctx)
      ({ s.1 with streamingMessage := s.1.streamingMessage ++ c }, s.2) = _
    rw [ih _]
    simp [List.flatten_cons, List.append_assoc]

theorem foldl_requests_sub (ctx : ChatPage.SendCtx) :
    ∀ (evs : List ChatPage.StreamEvent)
      (s : ChatPage.ChatState × List ChatPage.Request) (r : ChatPage.Request),
      r ∈ (evs.foldl (ChatPage.applyEvent ctx) s).2 →
      r ∈ s.2 ∨ r = ChatPage.Request.syncSend
          (ChatPage.mkPayload ctx.conversationId ctx.currentMessage ctx.model) := by
  intro evs
  induction evs with
  | nil => intro s r hr; exact Or.inl hr
  | cons ev evs ih =>
    intro s r hr
    rw [List.foldl_cons] at hr
    rcases ih _ r hr with h | h
    · cases ev with
      | metadata c => exact Or.inl h
      | chunk c => exact Or.inl h
      | complete c => exact Or.inl h
      | error e =>
        simp only [ChatPage.applyEvent] at h
        rcases List.mem_append.mp h with h2 | h2
        · exact Or.inl h2
        · right; simpa using h2
    · exact Or.inr h

theorem handleSend_go (st : ChatPage.ChatState) (convId : Option String)
    (evs : List ChatPage.StreamEvent) (hmsg : ChatPage.trim st.message ≠ [])
    (hstr : st.isStreaming = false) :
    ChatPage.handleSend st convId evs =
      evs.foldl (ChatPage.applyEvent ⟨convId, st.message, st.selectedModel⟩)
        ({ st with message := [], isStreaming := true, streamingMessage := [] },
         [ChatPage.Request.streamSend
            (ChatPage.mkPayload convId st.message st.selectedModel)]) := by
  have hcond : ¬(ChatPage.trim st.message = [] ∨ st.isStreaming = true) := by
    rintro (h | h)
    · exact hmsg h
    · rw [hstr] at h; exact Bool.false_ne_true h
  rw [ChatPage.handleSend, if_neg hcond]

/-- C1: if a streaming chat send fails, the client falls back exactly once
to the synchronous send path, re-submitting the same message text and the
same generation parameters (model, temperature, top_p, max_tokens), with
no further automatic retries: for a stream that delivers only data events
and then an error, the issued requests are exactly the streaming send and
one synchronous send of the identical payload. -/
theorem c1_stream_fallback_single (st : ChatPage.ChatState) (convId : Option String)
    (evs : List ChatPage.StreamEvent) (e : String)
    (hmsg : ChatPage.trim st.message ≠ []) (hstr : st.isStreaming = false)
    (hdata : ∀ ev ∈ evs, ChatPage.isDataEvent ev = true) :
    (ChatPage.handleSend st convId (evs ++ [ChatPage.StreamEvent.error e])).2 =
      [ChatPage.Request.streamSend (ChatPage.mkPayload convId st.message st.selectedModel),
       ChatPage.Request.syncSend (ChatPage.mkPayload convId st.message st.selectedModel)] := by
  rw [handleSend_go st convId _ hmsg hstr, List.foldl_append, List.foldl_cons,
    List.foldl_nil]
  simp only [ChatPage.applyEvent]
  rw [foldl_data_requests _ evs hdata]
  rfl

/-- C1 witness: a concrete failing stream issues exactly the streaming
request and one identical synchronous fallback. -/
theorem c1_stream_fallback_single_witness :
    (ChatPage.handleSend ⟨['h', 'i'], ChatPage.FrontModel.auto, [], false, false, []⟩ none
        ([ChatPage.StreamEvent.metadata "c1", ChatPage.StreamEvent.chunk ['a']] ++
          [ChatPage.StreamEvent.error "boom"])).2 =
      [ChatPage.Request.streamSend (ChatPage.mkPayload none ['h', 'i'] ChatPage.FrontModel.auto),
       ChatPage.Request.syncSend (ChatPage.mkPayload none ['h', 'i'] ChatPage.FrontModel.auto)] :=
  c1_stream_fallback_single ⟨['h', 'i'], ChatPage.FrontModel.auto, [], false, false, []⟩
    none [ChatPage.StreamEvent.metadata "c1", ChatPage.StreamEvent.chunk ['a']] "boom"
    (by decide) rfl (by decide)

/-- C2: a request that fails the rate-limit check or the input-side safety
check never produces an InferenceResult and never persists an assistant
Message — the inference collaborator is called zero times and the
persisted assistant list is empty. -/
theorem c2_blocked_no_inference (deps : Orchestrator.Deps) (em : Router.ModelChoice)
    (text : List Char) (h : deps.rateAllowed = false ∨ deps.inputAllowed = false) :
    (Orchestrator.runPipeline deps em text).2.inferenceCalls = 0 ∧
    (Orchestrator.runPipeline deps em text).2.persistedAssistant = [] := by
  rcases h with h | h
  · simp [Orchestrator.runPipeline, h]
  · rcases hr : deps.rateAllowed with _ | _
    · simp [Orchestrator.runPipeline, hr]
    · simp [Orchestrator.runPipeline, hr, h]

/-- C2 witness: a concrete rate-limited request makes zero inference calls
and persists nothing. -/
theorem c2_blocked_no_inference_witness :
    (Orchestrator.runPipeline ⟨false, true, true, []⟩
        Router.ModelChoice.auto []).2.inferenceCalls = 0 ∧
    (Orchestrator.runPipeline ⟨false, true, true, []⟩
        Router.ModelChoice.auto []).2.persistedAssistant = [] :=
  c2_blocked_no_inference ⟨false, true, true, []⟩ Router.ModelChoice.auto [] (Or.inl rfl)

/-- C3: an explicit specialist choice always wins regardless of text —
the Router selects it with strategy "explicit" and confidence exactly 1;
in particular an explicit math-specialist choice always yields the math
specialist. -/
theorem c3_router_explicit_override (s : Router.Specialist) (text : List Char) :
    Router.decide (Router.ModelChoice.specialist s) text =
      ⟨s, "explicit", 1, ["user override"]⟩ ∧
    (Router.decide (Router.ModelChoice.specialist Router.Specialist.math) text).endpoint =
      Router.Specialist.math :=
  ⟨rfl, rfl⟩

/-- C4: the response cleaner is idempotent — cleaning an already cleaned
text changes nothing. -/
theorem c4_clean_idempotent (x : List Tok) :
    TextCleaner.clean (TextCleaner.clean x) = TextCleaner.clean x := by
  have hmark : TextCleaner.noMark (TextCleaner.clean x) := by
    intro t ht
    exact TextCleaner.stripThink_noMark x false t
      (TextCleaner.mem_dropFence (TextCleaner.mem_normalizeWs ht))
  have hfence : TextCleaner.noFence (TextCleaner.clean x) := by
    intro t ht
    exact TextCleaner.dropFence_noFence _ t (TextCleaner.mem_normalizeWs ht)
  rw [TextCleaner.clean, TextCleaner.stripThink_eq_self _ hmark,
    TextCleaner.dropFence_eq_self _ hfence]
  exact TextCleaner.normalizeWs_idem
    (TextCleaner.dropFence (TextCleaner.stripThink false x))

end DatAI

namespace DatAI

/-- C5: for a key limited to 5 per minute, the first 5 requests inside one
tumbling window are allowed, the 6th in the same window is rejected with
a positive retry-after hint derived from reset_at, and a request in the
next window is allowed again. -/
theorem c5_rate_limit_window (key : String) (w t1 t2 t3 t4 t5 t6 t7 : ℕ)
    (h1 : t1 / 60 = w) (h2 : t2 / 60 = w) (h3 : t3 / 60 = w) (h4 : t4 / 60 = w)
    (h5 : t5 / 60 = w) (h6 : t6 / 60 = w) (h7 : t7 / 60 = w + 1) :
    RateLimiter.run (fun _ => 0) key 5 60 [t1, t2, t3, t4, t5, t6, t7] =
      [⟨true, 4, (w + 1) * 60, (w + 1) * 60 - t1⟩,
       ⟨true, 3, (w + 1) * 60, (w + 1) * 60 - t2⟩,
       ⟨true, 2, (w + 1) * 60, (w + 1) * 60 - t3⟩,
       ⟨true, 1, (w + 1) * 60, (w + 1) * 60 - t4⟩,
       ⟨true, 0, (w + 1) * 60, (w + 1) * 60 - t5⟩,
       ⟨false, 0, (w + 1) * 60, (w + 1) * 60 - t6⟩,
       ⟨true, 4, (w + 1 + 1) * 60, (w + 1 + 1) * 60 - t7⟩] ∧
    0 < (w + 1) * 60 - t6 := by
  constructor
  · simp only [RateLimiter.run, RateLimiter.check, h1, h2, h3, h4, h5, h6, h7,
      Function.update_apply, Prod.mk.injEq]
    norm_num
  · have h6lt : t6 < (w + 1) * 60 := by
      have hd : t6 / 60 < w + 1 := by rw [h6]; exact Nat.lt_succ_self w
      exact (Nat.div_lt_iff_lt_mul (by norm_num)).mp hd
    omega

/-- C5 witness: six requests at seconds 60..65 and one at second 120,
under a 5/minute limit. -/
theorem c5_rate_limit_window_witness :
    RateLimiter.run (fun _ => 0) "user:alice" 5 60 [60, 61, 62, 63, 64, 65, 120] =
      [⟨true, 4, (1 + 1) * 60, (1 + 1) * 60 - 60⟩,
       ⟨true, 3, (1 + 1) * 60, (1 + 1) * 60 - 61⟩,
       ⟨true, 2, (1 + 1) * 60, (1 + 1) * 60 - 62⟩,
       ⟨true, 1, (1 + 1) * 60, (1 + 1) * 60 - 63⟩,
       ⟨true, 0, (1 + 1) * 60, (1 + 1) * 60 - 64⟩,
       ⟨false, 0, (1 + 1) * 60, (1 + 1) * 60 - 65⟩,
       ⟨true, 4, (1 + 1 + 1) * 60, (1 + 1 + 1) * 60 - 120⟩] ∧
    0 < (1 + 1) * 60 - 65 :=
  c5_rate_limit_window "user:alice" 1 60 61 62 63 64 65 120 rfl rfl rfl rfl rfl rfl rfl

/-- C6: the message text of a chat request is kept between 1 and 10,000
characters — the page never sends an empty or whitespace-only message
(handleSend returns immediately), and the boundary constructor rejects a
message longer than 10,000 characters or empty, while any accepted
request is within bounds. -/
theorem c6_chat_request_validation :
    (∀ (st : ChatPage.ChatState) (convId : Option String)
        (evs : List ChatPage.StreamEvent),
        ChatPage.trim st.message = [] → ChatPage.handleSend st convId evs = (st, [])) ∧
    (∀ (cid : Option String) (msg : List Char) (cfg : GenConfig),
        10000 < msg.length → mkChatRequest cid msg cfg = none) ∧
    (∀ (cid : Option String) (msg : List Char) (cfg : GenConfig),
        msg.length = 0 → mkChatRequest cid msg cfg = none) ∧
    (∀ (cid : Option String) (msg : List Char) (cfg : GenConfig) (r : ChatRequest),
        mkChatRequest cid msg cfg = some r →
        1 ≤ r.message.length ∧ r.message.length ≤ 10000) := by
  refine ⟨?_, ?_, ?_, ?_⟩
  · intro st convId evs h
    rw [ChatPage.handleSend, if_pos (Or.inl h)]
  · intro cid msg cfg h
    rw [mkChatRequest, if_neg]
    rintro ⟨-, hc, -⟩
    omega
  · intro cid msg cfg h
    rw [mkChatRequest, if_neg]
    rintro ⟨hc, -⟩
    omega
  · intro cid msg cfg r hr
    rw [mkChatRequest] at hr
    split at hr
    · rename_i hc
      cases hr
      exact ⟨hc.1, hc.2.1⟩
    · cases hr

/-- C6 witness: the empty message is never sent, an 10,001-character
message and an empty message are rejected at construction, and a
one-character accepted request is within bounds. -/
theorem c6_chat_request_validation_witness :
    ChatPage.handleSend ChatPage.initialChatState none [] =
      (ChatPage.initialChatState, []) ∧
    mkChatRequest none (List.replicate 10001 'a') ⟨Router.ModelChoice.auto, 1, 100⟩ = none ∧
    mkChatRequest none [] ⟨Router.ModelChoice.auto, 1, 100⟩ = none ∧
    (1 ≤ (ChatRequest.mk none ['h'] ⟨Router.ModelChoice.auto, 1, 100⟩).message.length ∧
     (ChatRequest.mk none ['h'] ⟨Router.ModelChoice.auto, 1, 100⟩).message.length ≤ 10000) :=
  ⟨c6_chat_request_validation.1 ChatPage.initialChatState none [] rfl,
   c6_chat_request_validation.2.1 none (List.replicate 10001 'a')
     ⟨Router.ModelChoice.auto, 1, 100⟩ (by rw [List.length_replicate]; norm_num),
   c6_chat_request_validation.2.2.1 none [] ⟨Router.ModelChoice.auto, 1, 100⟩ rfl,
   c6_chat_request_validation.2.2.2 none ['h'] ⟨Router.ModelChoice.auto, 1, 100⟩
     (ChatRequest.mk none ['h'] ⟨Router.ModelChoice.auto, 1, 100⟩) (by decide)⟩

/-- C9: a mid-stream failure is surfaced, not silently truncated — the
onError callback resets the streaming buffer to empty, turns the
streaming flag off, and records the user-visible error report, which a
completion event never does, so a failed stream is distinguishable from a
completed one. -/
theorem c9_stream_error_surfaced (ctx : ChatPage.SendCtx)
    (s : ChatPage.ChatState × List ChatPage.Request) (e mId : String) :
    (ChatPage.applyEvent ctx s (ChatPage.StreamEvent.error e)).1.streamingMessage = [] ∧
    (ChatPage.applyEvent ctx s (ChatPage.StreamEvent.error e)).1.isStreaming = false ∧
    (ChatPage.applyEvent ctx s (ChatPage.StreamEvent.error e)).1.alerts =
      s.1.alerts ++ [e] ∧
    (ChatPage.applyEvent ctx s (ChatPage.StreamEvent.complete mId)).1.alerts =
      s.1.alerts ∧
    (ChatPage.applyEvent ctx s (ChatPage.StreamEvent.error e)).1.alerts ≠
      (ChatPage.applyEvent ctx s (ChatPage.StreamEvent.complete mId)).1.alerts := by
  refine ⟨rfl, rfl, rfl, rfl, ?_⟩
  simp only [ChatPage.applyEvent]
  intro h
  have hlen := congrArg List.length h
  simp at hlen

/-- C10 counterexample: while the synchronous fallback mutation is
pending (and no stream is in progress), handleSend is not a no-op — at a
concrete state with a nonempty message and pending = true it issues a
request and changes the state, refuting the claim that submitting during
a pending mutation makes handleSend return immediately. -/
theorem c10_counterexample :
    (⟨['h', 'i'], ChatPage.FrontModel.auto, [], false, true, []⟩ :
        ChatPage.ChatState).pending = true ∧
    (ChatPage.handleSend
        ⟨['h', 'i'], ChatPage.FrontModel.auto, [], false, true, []⟩ none []).2 ≠ [] ∧
    (ChatPage.handleSend
        ⟨['h', 'i'], ChatPage.FrontModel.auto, [], false, true, []⟩ none []).1 ≠
      (⟨['h', 'i'], ChatPage.FrontModel.auto, [], false, true, []⟩ :
        ChatPage.ChatState) := by
  refine ⟨rfl, ?_, ?_⟩ <;> decide

/-- C10 (amended): while a stream is in progress handleSend is a no-op
(returns the state unchanged and issues no request), and while a stream
is in progress or the synchronous mutation is pending both the input and
the send button are disabled, so no second send can be started through
the page UI; handleSend itself does not check the pending mutation. -/
theorem c10_single_flight_guard :
    (∀ (st : ChatPage.ChatState) (convId : Option String)
        (evs : List ChatPage.StreamEvent),
        st.isStreaming = true → ChatPage.handleSend st convId evs = (st, [])) ∧
    (∀ st : ChatPage.ChatState, st.pending = true ∨ st.isStreaming = true →
        ChatPage.inputDisabled st = true ∧ ChatPage.sendDisabled st = true) := by
  constructor
  · intro st convId evs h
    rw [ChatPage.handleSend, if_pos (Or.inr h)]
  · intro st h
    rcases h with h | h <;>
      simp [ChatPage.inputDisabled, ChatPage.sendDisabled, h]

/-- C10 witness: a concrete streaming state is left unchanged by
handleSend, and a concrete pending state disables the input and the send
button. -/
theorem c10_single_flight_guard_witness :
    ChatPage.handleSend ⟨['h'], ChatPage.FrontModel.auto, [], true, false, []⟩ none [] =
      (⟨['h'], ChatPage.FrontModel.auto, [], true, false, []⟩, []) ∧
    (ChatPage.inputDisabled ⟨['h'], ChatPage.FrontModel.auto, [], false, true, []⟩ = true ∧
     ChatPage.sendDisabled ⟨['h'], ChatPage.FrontModel.auto, [], false, true, []⟩ = true) :=
  ⟨c10_single_flight_guard.1 ⟨['h'], ChatPage.FrontModel.auto, [], true, false, []⟩
      none [] rfl,
   c10_single_flight_guard.2 ⟨['h'], ChatPage.FrontModel.auto, [], false, true, []⟩
      (Or.inl rfl)⟩

end DatAI

namespace DatAI

/-- C7: every request the page constructs carries the fixed generation
configuration — temperature 0.7 inside [0, 2], max_tokens 2048 inside
[1, 8192] — and a model selector whose id is one of exactly the four
ModelSelector entries, with the initial selection defaulting to auto. -/
theorem c7_generation_config_bounds (st : ChatPage.ChatState) (convId : Option String)
    (evs : List ChatPage.StreamEvent) (r : ChatPage.Request)
    (hr : r ∈ (ChatPage.handleSend st convId evs).2) :
    r.payload.meta.temperature = 7 / 10 ∧
    0 ≤ r.payload.meta.temperature ∧ r.payload.meta.temperature ≤ 2 ∧
    r.payload.meta.max_tokens = 2048 ∧
    1 ≤ r.payload.meta.max_tokens ∧ r.payload.meta.max_tokens ≤ 8192 ∧
    r.payload.meta.model.id ∈ ModelSelector.modelIds ∧
    ChatPage.initialChatState.selectedModel = ChatPage.FrontModel.auto ∧
    ModelSelector.modelIds =
      ["auto", "theory-specialist", "code-specialist", "math-specialist"] := by
  have hpay : r.payload = ChatPage.mkPayload convId st.message st.selectedModel := by
    by_cases hguard : ChatPage.trim st.message = [] ∨ st.isStreaming = true
    · rw [ChatPage.handleSend, if_pos hguard] at hr
      simp at hr
    · push_neg at hguard
      have hmsg : ChatPage.trim st.message ≠ [] := hguard.1
      have hstr : st.isStreaming = false := by
        have := hguard.2
        exact Bool.not_eq_true st.isStreaming ▸ this
      rw [handleSend_go st convId evs hmsg hstr] at hr
      rcases foldl_requests_sub ⟨convId, st.message, st.selectedModel⟩ evs _ r hr with h | h
      · simp only [List.mem_singleton] at h
        rw [h]
        rfl
      · rw [h]
        rfl
  rw [hpay]
  refine ⟨rfl, by norm_num [ChatPage.mkPayload], by norm_num [ChatPage.mkPayload],
    rfl, by norm_num [ChatPage.mkPayload], by norm_num [ChatPage.mkPayload], ?_, rfl, rfl⟩
  cases st.selectedModel <;>
    simp [ChatPage.mkPayload, ChatPage.FrontModel.id, ModelSelector.modelIds]

/-- C7 witness: the request issued for a concrete one-character message
carries the fixed configuration within bounds. -/
theorem c7_generation_config_bounds_witness :
    (ChatPage.Request.streamSend
        (ChatPage.mkPayload none ['h'] ChatPage.FrontModel.auto)).payload.meta.temperature
      = 7 / 10 ∧
    0 ≤ (ChatPage.Request.streamSend
        (ChatPage.mkPayload none ['h'] ChatPage.FrontModel.auto)).payload.meta.temperature ∧
    (ChatPage.Request.streamSend
        (ChatPage.mkPayload none ['h'] ChatPage.FrontModel.auto)).payload.meta.temperature ≤ 2 ∧
    (ChatPage.Request.streamSend
        (ChatPage.mkPayload none ['h'] ChatPage.FrontModel.auto)).payload.meta.max_tokens
      = 2048 ∧
    1 ≤ (ChatPage.Request.streamSend
        (ChatPage.mkPayload none ['h'] ChatPage.FrontModel.auto)).payload.meta.max_tokens ∧
    (ChatPage.Request.streamSend
        (ChatPage.mkPayload none ['h'] ChatPage.FrontModel.auto)).payload.meta.max_tokens ≤ 8192 ∧
    (ChatPage.Request.streamSend
        (ChatPage.mkPayload none ['h'] ChatPage.FrontModel.auto)).payload.meta.model.id
      ∈ ModelSelector.modelIds ∧
    ChatPage.initialChatState.selectedModel = ChatPage.FrontModel.auto ∧
    ModelSelector.modelIds =
      ["auto", "theory-specialist", "code-specialist", "math-specialist"] :=
  c7_generation_config_bounds ⟨['h'], ChatPage.FrontModel.auto, [], false, false, []⟩
    none [] (ChatPage.Request.streamSend
      (ChatPage.mkPayload none ['h'] ChatPage.FrontModel.auto))
    (by simp [ChatPage.handleSend, ChatPage.trim, ChatPage.isWsChar])

/-- C8: a streaming response is consumed as one metadata event, then
content chunks, then a completion event — after any prefix of chunks the
displayed streaming text is exactly the concatenation of the chunks
received so far in arrival order, and on the completion event the buffer
is cleared and the streaming flag turned off, with only the single
streaming request issued. -/
theorem c8_stream_event_consumption (st : ChatPage.ChatState) (convId : Option String)
    (m msgId : String) (chunks : List (List Char))
    (hmsg : ChatPage.trim st.message ≠ []) (hstr : st.isStreaming = false) :
    ((ChatPage.handleSend st convId (ChatPage.StreamEvent.metadata m ::
        (chunks.map ChatPage.StreamEvent.chunk ++
          [ChatPage.StreamEvent.complete msgId]))).1.streamingMessage = [] ∧
     (ChatPage.handleSend st convId (ChatPage.StreamEvent.metadata m ::
        (chunks.map ChatPage.StreamEvent.chunk ++
          [ChatPage.StreamEvent.complete msgId]))).1.isStreaming = false ∧
     (ChatPage.handleSend st convId (ChatPage.StreamEvent.metadata m ::
        (chunks.map ChatPage.StreamEvent.chunk ++
          [ChatPage.StreamEvent.complete msgId]))).2 =
       [ChatPage.Request.streamSend
          (ChatPage.mkPayload convId st.message st.selectedModel)]) ∧
    ∀ k : ℕ,
      (ChatPage.handleSend st convId (ChatPage.StreamEvent.metadata m ::
        (chunks.take k).map ChatPage.StreamEvent.chunk)).1.streamingMessage =
        (chunks.take k).flatten ∧
      (ChatPage.handleSend st convId (ChatPage.StreamEvent.metadata m ::
        (chunks.take k).map ChatPage.StreamEvent.chunk)).1.isStreaming = true := by
  constructor
  · rw [handleSend_go st convId _ hmsg hstr]
    simp only [List.foldl_cons, ChatPage.applyEvent]
    rw [List.foldl_append, foldl_chunks]
    simp only [List.foldl_cons, List.foldl_nil, ChatPage.applyEvent]
    simp
  · intro k
    rw [handleSend_go st convId _ hmsg hstr]
    simp only [List.foldl_cons, ChatPage.applyEvent]
    rw [foldl_chunks]
    simp

/-- C8 witness: a concrete two-chunk stream — after the first chunk the
display shows that chunk, and completion clears the buffer and flag with
one streaming request issued. -/
theorem c8_stream_event_consumption_witness :
    ((ChatPage.handleSend ⟨['h'], ChatPage.FrontModel.auto, [], false, false, []⟩ none
        (ChatPage.StreamEvent.metadata "c" ::
          ([['a', 'b'], ['c']].map ChatPage.StreamEvent.chunk ++
            [ChatPage.StreamEvent.complete "m1"]))).1.streamingMessage = [] ∧
     (ChatPage.handleSend ⟨['h'], ChatPage.FrontModel.auto, [], false, false, []⟩ none
        (ChatPage.StreamEvent.metadata "c" ::
          ([['a', 'b'], ['c']].map ChatPage.StreamEvent.chunk ++
            [ChatPage.StreamEvent.complete "m1"]))).1.isStreaming = false ∧
     (ChatPage.handleSend ⟨['h'], ChatPage.FrontModel.auto, [], false, false, []⟩ none
        (ChatPage.StreamEvent.metadata "c" ::
          ([['a', 'b'], ['c']].map ChatPage.StreamEvent.chunk ++
            [ChatPage.StreamEvent.complete "m1"]))).2 =
       [ChatPage.Request.streamSend
          (ChatPage.mkPayload none ['h'] ChatPage.FrontModel.auto)]) ∧
    ((ChatPage.handleSend ⟨['h'], ChatPage.FrontModel.auto, [], false, false, []⟩ none
        (ChatPage.StreamEvent.metadata "c" ::
          ([['a', 'b'], ['c']].take 1).map ChatPage.StreamEvent.chunk)).1.streamingMessage =
        ([['a', 'b'], ['c']].take 1).flatten ∧
     (ChatPage.handleSend ⟨['h'], ChatPage.FrontModel.auto, [], false, false, []⟩ none
        (ChatPage.StreamEvent.metadata "c" ::
          ([['a', 'b'], ['c']].take 1).map ChatPage.StreamEvent.chunk)).1.isStreaming = true) :=
  ⟨(c8_stream_event_consumption ⟨['h'], ChatPage.FrontModel.auto, [], false, false, []⟩
      none "c" "m1" [['a', 'b'], ['c']] (by decide) rfl).1,
   (c8_stream_event_consumption ⟨['h'], ChatPage.FrontModel.auto, [], false, false, []⟩
      none "c" "m1" [['a', 'b'], ['c']] (by decide) rfl).2 1⟩

end DatAI
